import Mathlib

/-
Verification development for the nvidia-wmi-ec-backlight driver
(src/nvidia-wmi-ec-backlight.c).

The driver is shallowly embedded: C integers become Lean Int (no arithmetic
in the driver can overflow 32 bits on the values involved), the WMI firmware
bus is an oracle function from a method id and a request record to an
optional response record (none models an ACPI failure status), and the
externally owned backlight framework entrypoints (set_brightness on another
device, device registration, allocation) are oracle parameters.  Each
embedded function also reports the observable events it produced (bus calls
made, values forwarded to the proxy device, warnings logged) so that
ordering and absence of calls can be stated.
-/

/-! ## Method ids, modes, sources (enums from the C source) -/

def WMI_BRIGHTNESS_METHOD_LEVEL : Int := 1
def WMI_BRIGHTNESS_METHOD_SOURCE : Int := 2
def WMI_BRIGHTNESS_METHOD_MAX : Int := 3

def WMI_BRIGHTNESS_MODE_GET : Int := 0
def WMI_BRIGHTNESS_MODE_SET : Int := 1
def WMI_BRIGHTNESS_MODE_GET_MAX_LEVEL : Int := 2
def WMI_BRIGHTNESS_MODE_MAX : Int := 3

def WMI_BRIGHTNESS_SOURCE_GPU : Int := 1
def WMI_BRIGHTNESS_SOURCE_EC : Int := 2
def WMI_BRIGHTNESS_SOURCE_AUX : Int := 3

/-- Error numbers used by the driver (returned negated, as in the kernel). -/
def EINVAL : Int := 22

def EIO_code : Int := 5

def ENODEV : Int := 19

def ENOMEM : Int := 12

def EPROBE_DEFER : Int := 517

/-! ## struct wmi_brightness_args

The 24-byte parameter record of the WmiBrightnessNotify ACPI method:
mode, val, ret, and three ignored padding words, each u32.  No arithmetic
is performed on the fields (they are only copied), so they are modelled
as Int. -/

structure wmi_brightness_args where
  mode : Int
  val : Int
  ret : Int
  ignored0 : Int
  ignored1 : Int
  ignored2 : Int
deriving DecidableEq, Repr

/-- The firmware bus: wmidev_evaluate_method specialised to instance 0.
Takes the WMI method id and the request record; returns the response
record, or none on an ACPI failure status. -/
def WmiBus : Type := Int → wmi_brightness_args → Option wmi_brightness_args

/-- Result of wmi_brightness_notify: the returned status, the final contents
of the caller's value location (the u32 pointed to by the val argument),
and the list of (method id, request record) bus calls that were made. -/
structure NotifyResult where
  status : Int
  val : Int
  calls : List (Int × wmi_brightness_args)
deriving DecidableEq, Repr

/-- The request record wmi_brightness_notify builds: args.mode is the mode,
args.val is the caller value exactly in SET mode (the C code initialises it
to 0 and assigns the caller value only under mode == SET), and ret and the
three padding words are zero-initialised. -/
def wmi_request (mode val : Int) : wmi_brightness_args :=
  { mode := mode
    val := if mode = WMI_BRIGHTNESS_MODE_SET then val else 0
    ret := 0, ignored0 := 0, ignored1 := 0, ignored2 := 0 }

/-- Embedding of wmi_brightness_notify (src/nvidia-wmi-ec-backlight.c:162).
Validates the method id and mode, builds the request record, performs the
bus call, and on success copies the response ret field back to the caller
location unless the mode was SET. -/
def wmi_brightness_notify (bus : WmiBus) (id mode val : Int) : NotifyResult :=
  if id < WMI_BRIGHTNESS_METHOD_LEVEL ∨ WMI_BRIGHTNESS_METHOD_MAX ≤ id ∨
     mode < WMI_BRIGHTNESS_MODE_GET ∨ WMI_BRIGHTNESS_MODE_MAX ≤ mode then
    { status := -EINVAL, val := val, calls := [] }
  else
    match bus id (wmi_request mode val) with
    | none =>
        { status := -EIO_code, val := val, calls := [(id, wmi_request mode val)] }
    | some resp =>
        { status := 0
          val := if mode = WMI_BRIGHTNESS_MODE_SET then val else resp.ret
          calls := [(id, wmi_request mode val)] }

/-! ## Backlight properties and level scaling -/

/-- The two fields of struct backlight_properties the driver reads (C int). -/
structure backlight_props where
  brightness : Int
  max_brightness : Int
deriving DecidableEq, Repr

/-- Embedding of fixp_linear_interpolate from include/linux/fixp-arith.h,
the kernel helper (static inline, compiled into this driver) that
scale_backlight_level delegates to.  C integer division truncates toward
zero, hence Int.tdiv. -/
def fixp_linear_interpolate (x0 y0 x1 y1 x : Int) : Int :=
  if y0 = y1 ∨ x = x0 then y0
  else if x1 = x0 ∨ x = x1 then y1
  else y0 + Int.tdiv ((y1 - y0) * (x - x0)) (x1 - x0)

/-- Embedding of scale_backlight_level (src/nvidia-wmi-ec-backlight.c:194):
scale the current brightness level of the first device to the range of the
second. -/
def scale_backlight_level (fromDev toDev : backlight_props) : Int :=
  fixp_linear_interpolate 0 0 fromDev.max_brightness toDev.max_brightness
    fromDev.brightness

/-! ## update_status and get_brightness (the registry-facing callbacks) -/

/-- Observable events of an update_status call, in order: a brightness value
forwarded to the proxy device via backlight_device_set_brightness, or a
firmware bus call (method id and request record) made by the codec. -/
inductive UpdEvent where
  | proxySet (level : Int)
  | fwCall (id : Int) (req : wmi_brightness_args)
deriving DecidableEq, Repr

/-- Result of nvidia_wmi_ec_backlight_update_status: the returned status,
the ordered event trace, and whether the relay-failure warning was logged. -/
structure UpdateResult where
  status : Int
  events : List UpdEvent
  warned : Bool
deriving DecidableEq, Repr

/-- Embedding of nvidia_wmi_ec_backlight_update_status
(src/nvidia-wmi-ec-backlight.c:204).  The proxy target, when present, is
given by its properties together with an oracle proxySet for the status
that backlight_device_set_brightness on it returns.  The proxy forward
happens first; the primary SET firmware call is issued afterwards and its
status is the status of the whole call. -/
def nvidia_wmi_ec_backlight_update_status (bus : WmiBus)
    (bd : backlight_props) (proxy_target : Option backlight_props)
    (proxySet : Int → Int) : UpdateResult :=
  let pre : List UpdEvent × Bool :=
    match proxy_target with
    | some pt =>
        let level := scale_backlight_level bd pt
        ([UpdEvent.proxySet level], proxySet level ≠ 0)
    | none => ([], false)
  let n := wmi_brightness_notify bus WMI_BRIGHTNESS_METHOD_LEVEL
    WMI_BRIGHTNESS_MODE_SET bd.brightness
  { status := n.status
    events := pre.1 ++ n.calls.map (fun c => UpdEvent.fwCall c.1 c.2)
    warned := pre.2 }

/-- Result of nvidia_wmi_ec_backlight_get_brightness: the value returned to
the backlight registry (the level on success, a negative errno on failure). -/
def nvidia_wmi_ec_backlight_get_brightness (bus : WmiBus) : Int :=
  let n := wmi_brightness_notify bus WMI_BRIGHTNESS_METHOD_LEVEL
    WMI_BRIGHTNESS_MODE_GET 0
  if n.status < 0 then n.status else n.val

/-! ## Power-management notifier -/

def PM_POST_SUSPEND : Int := 4

def NOTIFY_DONE : Int := 0

def NOTIFY_OK : Int := 1

/-- Result of the pm notifier callback: the notifier chain return value, the
list of brightness levels with which backlight_update_status was invoked
(the update path runs with the device's cached current level), and whether
the refresh-failure warning was logged. -/
structure PmNotifierResult where
  result : Int
  updates : List Int
  warned : Bool
deriving DecidableEq, Repr

/-- Embedding of nvidia_wmi_ec_backlight_pm_notifier
(src/nvidia-wmi-ec-backlight.c:242).  backlight_update_status(p->bl_dev)
re-runs the update_status callback on the primary device with its cached
properties; any failure is only logged. -/
def nvidia_wmi_ec_backlight_pm_notifier (bus : WmiBus)
    (bd : backlight_props) (proxy_target : Option backlight_props)
    (proxySet : Int → Int) (event : Int) : PmNotifierResult :=
  if event = PM_POST_SUSPEND then
    let u := nvidia_wmi_ec_backlight_update_status bus bd proxy_target proxySet
    { result := NOTIFY_OK, updates := [bd.brightness], warned := u.status ≠ 0 }
  else
    { result := NOTIFY_DONE, updates := [], warned := false }

/-! ## Probe -/

/-- Module configuration as it stands when probe runs (after dmi_check_system
has applied the quirks table): the proxy target name module parameter (none
models a NULL pointer), the reprobe-attempt ceiling, and the resume-restore
flag. -/
structure ProbeConfig where
  backlight_proxy_target : Option String
  max_reprobe_attempts : Int
  restore_level_on_resume : Bool

/-- The C condition: backlight_proxy_target is non-NULL and nonempty. -/
def proxy_target_configured (cfg : ProbeConfig) : Bool :=
  match cfg.backlight_proxy_target with
  | none => false
  | some s => s ≠ ""

/-- Result of a probe attempt: the returned status, the value of the
process-wide num_reprobe_attempts counter afterwards, whether the backlight
device registration call was made successfully, whether priv->proxy_target
was bound, whether the pm notifier was registered, whether the
disable-proxy diagnostic was emitted, whether the initial-import warning
was emitted, and the ordered list of firmware bus calls made. -/
structure ProbeResult where
  status : Int
  counter : Int
  registered : Bool
  proxy_bound : Bool
  pm_registered : Bool
  warned_disable : Bool
  import_warned : Bool
  busCalls : List (Int × wmi_brightness_args)

/-- An early-exit probe result: nothing registered or bound. -/
def ProbeResult.early (s c : Int) (w : Bool)
    (calls : List (Int × wmi_brightness_args)) : ProbeResult :=
  { status := s, counter := c, registered := false, proxy_bound := false,
    pm_registered := false, warned_disable := w, import_warned := false,
    busCalls := calls }

/-- The proxy-target lookup phase at the top of probe
(src/nvidia-wmi-ec-backlight.c:288).  lookup is the result of
backlight_device_get_by_name; addActionStatus the status of
devm_add_action_or_reset.  Returns either an early-exit (status, new
counter) or (resolved target, new counter, disable-diagnostic emitted). -/
def probe_lookup_phase (cfg : ProbeConfig) (counter : Int)
    (lookup : Option backlight_props) (addActionStatus : Int) :
    Except (Int × Int) (Option backlight_props × Int × Bool) :=
  if proxy_target_configured cfg then
    match lookup with
    | some t =>
        if addActionStatus ≠ 0 then Except.error (addActionStatus, counter)
        else Except.ok (some t, counter, false)
    | none =>
        if counter < cfg.max_reprobe_attempts then
          Except.error (-EPROBE_DEFER, counter + 1)
        else
          Except.ok (none, counter, true)
  else
    Except.ok (none, counter, false)

/-- The rest of probe, from the BrightnessSource query onward
(src/nvidia-wmi-ec-backlight.c:314).  registerStatus is the status of
devm_backlight_device_register (0 = a valid device was returned); allocOk
models devm_kzalloc succeeding; bdevSet is the status oracle for the
initial-import backlight_device_set_brightness call on the new device. -/
def probe_after_lookup (cfg : ProbeConfig) (counter : Int)
    (target : Option backlight_props) (warnedDisable : Bool) (bus : WmiBus)
    (registerStatus : Int) (allocOk : Bool) (bdevSet : Int → Int) :
    ProbeResult :=
  let r1 := wmi_brightness_notify bus WMI_BRIGHTNESS_METHOD_SOURCE
    WMI_BRIGHTNESS_MODE_GET 0
  if r1.status ≠ 0 then
    ProbeResult.early r1.status counter warnedDisable r1.calls
  else if r1.val ≠ WMI_BRIGHTNESS_SOURCE_EC then
    ProbeResult.early (-ENODEV) counter warnedDisable r1.calls
  else
    let r2 := wmi_brightness_notify bus WMI_BRIGHTNESS_METHOD_LEVEL
      WMI_BRIGHTNESS_MODE_GET_MAX_LEVEL 0
    if r2.status ≠ 0 then
      ProbeResult.early r2.status counter warnedDisable (r1.calls ++ r2.calls)
    else
      let r3 := wmi_brightness_notify bus WMI_BRIGHTNESS_METHOD_LEVEL
        WMI_BRIGHTNESS_MODE_GET 0
      if r3.status ≠ 0 then
        ProbeResult.early r3.status counter warnedDisable
          (r1.calls ++ r2.calls ++ r3.calls)
      else if registerStatus ≠ 0 then
        ProbeResult.early registerStatus counter warnedDisable
          (r1.calls ++ r2.calls ++ r3.calls)
      else if !allocOk then
        { status := -ENOMEM, counter := counter, registered := true,
          proxy_bound := false, pm_registered := false,
          warned_disable := warnedDisable, import_warned := false,
          busCalls := r1.calls ++ r2.calls ++ r3.calls }
      else
        let bdevProps : backlight_props :=
          { brightness := r3.val, max_brightness := r2.val }
        match target with
        | some t =>
            { status := 0, counter := counter, registered := true,
              proxy_bound := true,
              pm_registered := cfg.restore_level_on_resume,
              warned_disable := warnedDisable,
              import_warned := bdevSet (scale_backlight_level t bdevProps) ≠ 0,
              busCalls := r1.calls ++ r2.calls ++ r3.calls }
        | none =>
            { status := 0, counter := counter, registered := true,
              proxy_bound := false,
              pm_registered := cfg.restore_level_on_resume,
              warned_disable := warnedDisable, import_warned := false,
              busCalls := r1.calls ++ r2.calls ++ r3.calls }

/-- Embedding of nvidia_wmi_ec_backlight_probe
(src/nvidia-wmi-ec-backlight.c:274): the lookup phase followed, when it did
not exit early, by the source gate, the level queries, registration, the
optional initial import from the proxy target, and the optional pm-notifier
registration. -/
def nvidia_wmi_ec_backlight_probe (cfg : ProbeConfig) (counter : Int)
    (lookup : Option backlight_props) (addActionStatus : Int) (bus : WmiBus)
    (registerStatus : Int) (allocOk : Bool) (bdevSet : Int → Int) :
    ProbeResult :=
  match probe_lookup_phase cfg counter lookup addActionStatus with
  | Except.error sc => ProbeResult.early sc.1 sc.2 false []
  | Except.ok tcw =>
      probe_after_lookup cfg tcw.2.1 tcw.1 tcw.2.2 bus registerStatus allocOk
        bdevSet

/-- The counter value after n successive probe attempts starting from 0,
all with the same environment. -/
def reprobe_iter (cfg : ProbeConfig) (lookup : Option backlight_props)
    (addActionStatus : Int) (bus : WmiBus) (registerStatus : Int)
    (allocOk : Bool) (bdevSet : Int → Int) : Nat → Int
  | 0 => 0
  | Nat.succ n =>
      (nvidia_wmi_ec_backlight_probe cfg
        (reprobe_iter cfg lookup addActionStatus bus registerStatus allocOk
          bdevSet n)
        lookup addActionStatus bus registerStatus allocOk bdevSet).counter

/-! ## Helper lemmas about the codec -/

/-- Shorthand for the codec's validity check on (id, mode). -/
def notify_args_invalid (id mode : Int) : Prop :=
  id < WMI_BRIGHTNESS_METHOD_LEVEL ∨ WMI_BRIGHTNESS_METHOD_MAX ≤ id ∨
  mode < WMI_BRIGHTNESS_MODE_GET ∨ WMI_BRIGHTNESS_MODE_MAX ≤ mode

instance (id mode : Int) : Decidable (notify_args_invalid id mode) := by
  unfold notify_args_invalid
  infer_instance

/-- On an invalid (id, mode) pair the codec returns -EINVAL, leaves the value
location alone and makes no bus call. -/
theorem wmi_brightness_notify_invalid (bus : WmiBus) (id mode val : Int)
    (h : notify_args_invalid id mode) :
    wmi_brightness_notify bus id mode val =
      { status := -EINVAL, val := val, calls := [] } := by
  unfold notify_args_invalid at h
  rw [wmi_brightness_notify, if_pos h]

/-- On a valid pair with a failing bus call the codec returns -EIO, leaves the
value location alone and records the one bus call. -/
theorem wmi_brightness_notify_of_none (bus : WmiBus) (id mode val : Int)
    (h : ¬notify_args_invalid id mode)
    (hb : bus id (wmi_request mode val) = none) :
    wmi_brightness_notify bus id mode val =
      { status := -EIO_code, val := val, calls := [(id, wmi_request mode val)] } := by
  unfold notify_args_invalid at h
  rw [wmi_brightness_notify, if_neg h, hb]

/-- On a valid pair with a successful bus call the codec returns 0, stores the
response ret field in the value location unless the mode was SET, and
records the one bus call. -/
theorem wmi_brightness_notify_of_some (bus : WmiBus) (id mode val : Int)
    (resp : wmi_brightness_args) (h : ¬notify_args_invalid id mode)
    (hb : bus id (wmi_request mode val) = some resp) :
    wmi_brightness_notify bus id mode val =
      { status := 0
        val := if mode = WMI_BRIGHTNESS_MODE_SET then val else resp.ret
        calls := [(id, wmi_request mode val)] } := by
  unfold notify_args_invalid at h
  rw [wmi_brightness_notify, if_neg h, hb]

/-- On a valid pair the codec makes exactly one bus call, with the request
record it built, whatever the bus does. -/
theorem wmi_brightness_notify_calls (bus : WmiBus) (id mode val : Int)
    (h : ¬notify_args_invalid id mode) :
    (wmi_brightness_notify bus id mode val).calls =
      [(id, wmi_request mode val)] := by
  cases hb : bus id (wmi_request mode val)
  · rw [wmi_brightness_notify_of_none bus id mode val h hb]
  · rw [wmi_brightness_notify_of_some bus id mode val _ h hb]

/-! ## Claim C2 -/

/-- C2: for every method id and mode, if the id is not one of Level and
Source, or the mode is not one of Get, Set and GetMax,
wmi_brightness_notify returns -EINVAL and performs no firmware bus call. -/
theorem wmi_brightness_notify_rejects_invalid (bus : WmiBus) (id mode val : Int)
    (h : (id ≠ WMI_BRIGHTNESS_METHOD_LEVEL ∧ id ≠ WMI_BRIGHTNESS_METHOD_SOURCE) ∨
         (mode ≠ WMI_BRIGHTNESS_MODE_GET ∧ mode ≠ WMI_BRIGHTNESS_MODE_SET ∧
          mode ≠ WMI_BRIGHTNESS_MODE_GET_MAX_LEVEL)) :
    (wmi_brightness_notify bus id mode val).status = -EINVAL ∧
    (wmi_brightness_notify bus id mode val).calls = [] := by
  have hcond : notify_args_invalid id mode := by
    unfold notify_args_invalid
    simp only [WMI_BRIGHTNESS_METHOD_LEVEL, WMI_BRIGHTNESS_METHOD_SOURCE,
      WMI_BRIGHTNESS_METHOD_MAX, WMI_BRIGHTNESS_MODE_GET,
      WMI_BRIGHTNESS_MODE_SET, WMI_BRIGHTNESS_MODE_GET_MAX_LEVEL,
      WMI_BRIGHTNESS_MODE_MAX] at h ⊢
    omega
  rw [wmi_brightness_notify_invalid bus id mode val hcond]
  exact ⟨rfl, rfl⟩

/-- C2 witness: the invalid pair (id 3, mode 0) is rejected with -EINVAL and
no bus call. -/
theorem wmi_brightness_notify_rejects_invalid_witness :
    (wmi_brightness_notify (fun _ _ => none) 3 0 7).status = -EINVAL ∧
    (wmi_brightness_notify (fun _ _ => none) 3 0 7).calls = [] :=
  wmi_brightness_notify_rejects_invalid (fun _ _ => none) 3 0 7
    (Or.inl ⟨by decide, by decide⟩)

/-! ## Claim C3 -/

/-- C3: for every valid (methodId, mode) pair and caller-supplied value, the
codec passes exactly one request record to the firmware bus; its mode field
is the requested mode, its value field equals the caller-supplied value
when the mode is Set and 0 otherwise, and its ret field and reserved
padding fields are zero. -/
theorem wmi_brightness_notify_request_record (bus : WmiBus) (id mode val : Int)
    (hid : id = WMI_BRIGHTNESS_METHOD_LEVEL ∨ id = WMI_BRIGHTNESS_METHOD_SOURCE)
    (hmode : mode = WMI_BRIGHTNESS_MODE_GET ∨ mode = WMI_BRIGHTNESS_MODE_SET ∨
      mode = WMI_BRIGHTNESS_MODE_GET_MAX_LEVEL) :
    (wmi_brightness_notify bus id mode val).calls =
      [(id, { mode := mode
              val := if mode = WMI_BRIGHTNESS_MODE_SET then val else 0
              ret := 0, ignored0 := 0, ignored1 := 0, ignored2 := 0 })] := by
  have hcond : ¬notify_args_invalid id mode := by
    unfold notify_args_invalid
    simp only [WMI_BRIGHTNESS_METHOD_LEVEL, WMI_BRIGHTNESS_METHOD_SOURCE,
      WMI_BRIGHTNESS_METHOD_MAX, WMI_BRIGHTNESS_MODE_GET,
      WMI_BRIGHTNESS_MODE_SET, WMI_BRIGHTNESS_MODE_GET_MAX_LEVEL,
      WMI_BRIGHTNESS_MODE_MAX] at hid hmode ⊢
    omega
  rw [wmi_brightness_notify_calls bus id mode val hcond]
  rfl

/-- C3 witness: a GET call on the Level method with caller value 9 passes the
record with mode 0, value 0 and zero padding. -/
theorem wmi_brightness_notify_request_record_witness :
    (wmi_brightness_notify (fun _ _ => none) 1 0 9).calls =
      [(1, { mode := 0, val := if (0 : Int) = WMI_BRIGHTNESS_MODE_SET then 9 else 0
             ret := 0, ignored0 := 0, ignored1 := 0, ignored2 := 0 })] :=
  wmi_brightness_notify_request_record (fun _ _ => none) 1 0 9
    (Or.inl (by decide)) (Or.inl (by decide))

/-! ## Claim C10 -/

/-- C10: whenever wmi_brightness_notify fails (with -EINVAL on a malformed
pair or -EIO on a bus failure) the caller's value location is unchanged; on
success it is also unchanged in SET mode, and it is overwritten with the
firmware response ret field exactly on a successful non-SET (Get or GetMax)
call. -/
theorem wmi_brightness_notify_val_location (bus : WmiBus) (id mode val : Int) :
    ((wmi_brightness_notify bus id mode val).status ≠ 0 →
      (wmi_brightness_notify bus id mode val).val = val) ∧
    ((wmi_brightness_notify bus id mode val).status = 0 →
      (mode = WMI_BRIGHTNESS_MODE_SET →
        (wmi_brightness_notify bus id mode val).val = val) ∧
      (mode ≠ WMI_BRIGHTNESS_MODE_SET →
        ∃ resp, bus id (wmi_request mode val) = some resp ∧
          (wmi_brightness_notify bus id mode val).val = resp.ret)) := by
  by_cases hcond : notify_args_invalid id mode
  · rw [wmi_brightness_notify_invalid bus id mode val hcond]
    refine ⟨fun _ => rfl, fun h0 => absurd h0 ?_⟩
    simp [EINVAL]
  · cases hb : bus id (wmi_request mode val) with
    | none =>
        rw [wmi_brightness_notify_of_none bus id mode val hcond hb]
        refine ⟨fun _ => rfl, fun h0 => absurd h0 ?_⟩
        simp [EIO_code]
    | some resp =>
        rw [wmi_brightness_notify_of_some bus id mode val resp hcond hb]
        refine ⟨fun h => absurd rfl h, fun _ => ⟨fun hset => ?_, fun hset => ?_⟩⟩
        · simp [hset]
        · exact ⟨resp, rfl, by simp [hset]⟩

/-- C10 witness: on a bus failure a GET call leaves the caller value 9 in
place, and on a successful GET the caller location receives the response
ret field. -/
theorem wmi_brightness_notify_val_location_witness :
    (wmi_brightness_notify (fun _ _ => none) 1 0 9).val = 9 ∧
    ∃ resp, (fun (_ : Int) (_ : wmi_brightness_args) =>
        some (wmi_request 0 44)) 1 (wmi_request 0 9) = some resp ∧
      (wmi_brightness_notify
        (fun _ _ => some (wmi_request 0 44)) 1 0 9).val = resp.ret := by
  constructor
  · exact (wmi_brightness_notify_val_location (fun _ _ => none) 1 0 9).1
      (by decide)
  · exact ((wmi_brightness_notify_val_location
      (fun _ _ => some (wmi_request 0 44)) 1 0 9).2 (by decide)).2 (by decide)

/-! ## Level scaling lemmas, claims C4 and C5 -/

/-- With a positive source maximum and target maximum the scaled level is the
truncated linear map: scale(a, M, N) = tdiv (N * a) M. -/
theorem scale_backlight_level_eq_tdiv (a c M N : Int) (hM : 0 < M) (hN : 0 < N) :
    scale_backlight_level { brightness := a, max_brightness := M }
      { brightness := c, max_brightness := N } = Int.tdiv (N * a) M := by
  by_cases ha0 : a = 0
  · subst ha0
    simp [scale_backlight_level, fixp_linear_interpolate]
  · by_cases haM : a = M
    · subst haM
      simp only [scale_backlight_level, fixp_linear_interpolate]
      rw [if_neg (by push_neg; exact ⟨hN.ne, ha0⟩), if_pos (by simp),
        Int.mul_tdiv_cancel N hM.ne.symm]
    · simp only [scale_backlight_level, fixp_linear_interpolate]
      rw [if_neg (by push_neg; exact ⟨hN.ne, ha0⟩),
        if_neg (by push_neg; exact ⟨hM.ne.symm, haM⟩)]
      simp

/-- C4 counterexample: with sourceMax = 0, source level 5 and target max 10
the code returns 10, not 0, because fixp_linear_interpolate returns the
second endpoint y1 when the two x endpoints coincide. -/
theorem scale_backlight_level_zero_source_max_counterexample :
    (scale_backlight_level { brightness := 5, max_brightness := 0 }
        { brightness := 0, max_brightness := 10 } = 0) = False := by
  decide

/-- C4 amended: with sourceMax = 0 the relayed level is 0 when the source
level is 0 or the target max is 0, and the target max otherwise (no
division is attempted in either case). -/
theorem scale_backlight_level_zero_source_max (level c N : Int) :
    scale_backlight_level { brightness := level, max_brightness := 0 }
      { brightness := c, max_brightness := N } =
      if N = 0 ∨ level = 0 then 0 else N := by
  simp only [scale_backlight_level, fixp_linear_interpolate]
  by_cases hN : N = 0
  · subst hN
    simp
  · by_cases hl : level = 0
    · subst hl
      simp
    · rw [if_neg (by push_neg; exact ⟨fun h => hN h.symm, hl⟩),
        if_pos (Or.inl trivial), if_neg (by push_neg; exact ⟨hN, hl⟩)]

/-- C5: for positive source maximum M and target maximum N, the relay maps 0
to 0 and M to N, and is monotonically non-decreasing in the (nonnegative)
source level. -/
theorem scale_backlight_level_linear (M N : Int) (hM : 0 < M) (hN : 0 < N) :
    scale_backlight_level { brightness := 0, max_brightness := M }
      { brightness := 0, max_brightness := N } = 0 ∧
    scale_backlight_level { brightness := M, max_brightness := M }
      { brightness := 0, max_brightness := N } = N ∧
    (∀ a b : Int, 0 ≤ a → a ≤ b →
      scale_backlight_level { brightness := a, max_brightness := M }
          { brightness := 0, max_brightness := N } ≤
        scale_backlight_level { brightness := b, max_brightness := M }
          { brightness := 0, max_brightness := N }) := by
  refine ⟨?_, ?_, ?_⟩
  · rw [scale_backlight_level_eq_tdiv 0 0 M N hM hN]
    simp
  · rw [scale_backlight_level_eq_tdiv M 0 M N hM hN,
      Int.mul_tdiv_cancel N hM.ne.symm]
  · intro a b ha hab
    rw [scale_backlight_level_eq_tdiv a 0 M N hM hN,
      scale_backlight_level_eq_tdiv b 0 M N hM hN,
      Int.tdiv_eq_ediv (mul_nonneg hN.le ha) hM.le,
      Int.tdiv_eq_ediv (mul_nonneg hN.le (ha.trans hab)) hM.le]
    exact Int.ediv_le_ediv hM (by nlinarith)

/-- C5 witness: with M = 100 and N = 255, the relay maps 0 to 0 and 100 to
255, and 40 maps no higher than 80 does. -/
theorem scale_backlight_level_linear_witness :
    scale_backlight_level { brightness := 0, max_brightness := 100 }
      { brightness := 0, max_brightness := 255 } = 0 ∧
    scale_backlight_level { brightness := 100, max_brightness := 100 }
      { brightness := 0, max_brightness := 255 } = 255 ∧
    scale_backlight_level { brightness := 40, max_brightness := 100 }
        { brightness := 0, max_brightness := 255 } ≤
      scale_backlight_level { brightness := 80, max_brightness := 100 }
        { brightness := 0, max_brightness := 255 } := by
  have h := scale_backlight_level_linear 100 255 (by decide) (by decide)
  exact ⟨h.1, h.2.1, h.2.2 40 80 (by decide) (by decide)⟩

/-! ## Claims C6, C8, C9 -/

/-- C6 counterexample: with primary max 100 and level 50 and proxy max 255,
the value relayed to the secondary device is 127 (truncating division), so
a forward of 128 never occurs in the event trace. -/
theorem update_status_relay_128_counterexample :
    (UpdEvent.proxySet 128 ∈
      (nvidia_wmi_ec_backlight_update_status
        (fun _ _ => some (wmi_request 0 0))
        { brightness := 50, max_brightness := 100 }
        (some { brightness := 0, max_brightness := 255 })
        (fun _ => 0)).events) = False := by
  decide

/-- C6 amended: with a bound proxy target of max 255 and a primary device of
max 100, setting brightness 50 relays the truncated value 127 to the
secondary device before issuing the primary firmware SET call with value
50, whatever the bus, the proxy outcome and the proxy level are. -/
theorem update_status_relay_scenario (bus : WmiBus) (proxySet : Int → Int)
    (pb : Int) :
    (nvidia_wmi_ec_backlight_update_status bus
      { brightness := 50, max_brightness := 100 }
      (some { brightness := pb, max_brightness := 255 }) proxySet).events =
    [UpdEvent.proxySet 127,
     UpdEvent.fwCall WMI_BRIGHTNESS_METHOD_LEVEL
       (wmi_request WMI_BRIGHTNESS_MODE_SET 50)] := by
  have hscale : scale_backlight_level
      { brightness := 50, max_brightness := 100 }
      { brightness := pb, max_brightness := 255 } = 127 := rfl
  have hcalls := wmi_brightness_notify_calls bus WMI_BRIGHTNESS_METHOD_LEVEL
    WMI_BRIGHTNESS_MODE_SET 50 (by decide)
  simp [nvidia_wmi_ec_backlight_update_status, hscale, hcalls]

/-- C8: with a bound proxy target whose forwarded set call fails, the update
logs the relay warning, still issues the primary firmware SET call with the
device's brightness right after the forward, and returns exactly the
codec's status for that call; in particular a bus failure on the primary
SET call propagates as -EIO. -/
theorem update_status_proxy_failure_is_absorbed (bus : WmiBus)
    (bd pt : backlight_props) (proxySet : Int → Int)
    (hfail : proxySet (scale_backlight_level bd pt) ≠ 0) :
    (nvidia_wmi_ec_backlight_update_status bus bd (some pt) proxySet).warned
      = true ∧
    (nvidia_wmi_ec_backlight_update_status bus bd (some pt) proxySet).status =
      (wmi_brightness_notify bus WMI_BRIGHTNESS_METHOD_LEVEL
        WMI_BRIGHTNESS_MODE_SET bd.brightness).status ∧
    (nvidia_wmi_ec_backlight_update_status bus bd (some pt) proxySet).events =
      [UpdEvent.proxySet (scale_backlight_level bd pt),
       UpdEvent.fwCall WMI_BRIGHTNESS_METHOD_LEVEL
         (wmi_request WMI_BRIGHTNESS_MODE_SET bd.brightness)] ∧
    (bus WMI_BRIGHTNESS_METHOD_LEVEL
        (wmi_request WMI_BRIGHTNESS_MODE_SET bd.brightness) = none →
      (nvidia_wmi_ec_backlight_update_status bus bd (some pt) proxySet).status
        = -EIO_code) := by
  have hcalls := wmi_brightness_notify_calls bus WMI_BRIGHTNESS_METHOD_LEVEL
    WMI_BRIGHTNESS_MODE_SET bd.brightness (by decide)
  refine ⟨?_, ?_, ?_, ?_⟩
  · simp [nvidia_wmi_ec_backlight_update_status, hfail]
  · simp [nvidia_wmi_ec_backlight_update_status]
  · simp [nvidia_wmi_ec_backlight_update_status, hcalls]
  · intro hb
    simp [nvidia_wmi_ec_backlight_update_status,
      wmi_brightness_notify_of_none bus WMI_BRIGHTNESS_METHOD_LEVEL
        WMI_BRIGHTNESS_MODE_SET bd.brightness (by decide) hb]

/-- C8 witness: with a failing proxy set and a failing bus, the warning is
logged and the update returns -EIO. -/
theorem update_status_proxy_failure_is_absorbed_witness :
    (nvidia_wmi_ec_backlight_update_status (fun _ _ => none)
      { brightness := 50, max_brightness := 100 }
      (some { brightness := 0, max_brightness := 255 })
      (fun _ => -1)).warned = true ∧
    (nvidia_wmi_ec_backlight_update_status (fun _ _ => none)
      { brightness := 50, max_brightness := 100 }
      (some { brightness := 0, max_brightness := 255 })
      (fun _ => -1)).status = -EIO_code := by
  have h := update_status_proxy_failure_is_absorbed (fun _ _ => none)
    { brightness := 50, max_brightness := 100 }
    { brightness := 0, max_brightness := 255 } (fun _ => -1) (by decide)
  exact ⟨h.1, h.2.2.2 rfl⟩

/-- C9: the pm notifier does nothing (returns NOTIFY_DONE, runs no update) on
every event other than PM_POST_SUSPEND; on PM_POST_SUSPEND it runs the
update path exactly once with the device's cached brightness, returns
NOTIFY_OK regardless of the update's outcome, and only logs a failure. -/
theorem pm_notifier_filters_post_suspend (bus : WmiBus) (bd : backlight_props)
    (proxy_target : Option backlight_props) (proxySet : Int → Int)
    (event : Int) :
    (event ≠ PM_POST_SUSPEND →
      nvidia_wmi_ec_backlight_pm_notifier bus bd proxy_target proxySet event =
        { result := NOTIFY_DONE, updates := [], warned := false }) ∧
    (event = PM_POST_SUSPEND →
      (nvidia_wmi_ec_backlight_pm_notifier bus bd proxy_target proxySet
          event).result = NOTIFY_OK ∧
      (nvidia_wmi_ec_backlight_pm_notifier bus bd proxy_target proxySet
          event).updates = [bd.brightness] ∧
      ((nvidia_wmi_ec_backlight_pm_notifier bus bd proxy_target proxySet
          event).warned = true ↔
        (nvidia_wmi_ec_backlight_update_status bus bd proxy_target
          proxySet).status ≠ 0)) := by
  constructor
  · intro hne
    simp [nvidia_wmi_ec_backlight_pm_notifier, hne]
  · intro heq
    subst heq
    simp [nvidia_wmi_ec_backlight_pm_notifier]

/-- C9 witness: a PM_SUSPEND_PREPARE event (3) is ignored, and a
PM_POST_SUSPEND event (4) with cached level 60 runs one update with 60 and
returns NOTIFY_OK. -/
theorem pm_notifier_filters_post_suspend_witness :
    nvidia_wmi_ec_backlight_pm_notifier (fun _ _ => none)
      { brightness := 60, max_brightness := 100 } none (fun _ => 0) 3 =
      { result := NOTIFY_DONE, updates := [], warned := false } ∧
    (nvidia_wmi_ec_backlight_pm_notifier (fun _ _ => none)
      { brightness := 60, max_brightness := 100 } none (fun _ => 0) 4).updates
      = [60] ∧
    (nvidia_wmi_ec_backlight_pm_notifier (fun _ _ => none)
      { brightness := 60, max_brightness := 100 } none (fun _ => 0) 4).result
      = NOTIFY_OK := by
  refine ⟨?_, ?_, ?_⟩
  · exact (pm_notifier_filters_post_suspend (fun _ _ => none)
      { brightness := 60, max_brightness := 100 } none (fun _ => 0) 3).1
      (by decide)
  · exact ((pm_notifier_filters_post_suspend (fun _ _ => none)
      { brightness := 60, max_brightness := 100 } none (fun _ => 0) 4).2
      rfl).2.1
  · exact ((pm_notifier_filters_post_suspend (fun _ _ => none)
      { brightness := 60, max_brightness := 100 } none (fun _ => 0) 4).2
      rfl).1

/-! ## Probe lemmas, claims C1 and C7 -/

/-- When the lookup phase exits early, probe returns its status with nothing
registered or bound. -/
theorem probe_of_phase_error (cfg : ProbeConfig) (counter : Int)
    (lookup : Option backlight_props) (aas : Int) (bus : WmiBus)
    (regSt : Int) (allocOk : Bool) (bset : Int → Int) (sc : Int × Int)
    (hphase : probe_lookup_phase cfg counter lookup aas = Except.error sc) :
    nvidia_wmi_ec_backlight_probe cfg counter lookup aas bus regSt allocOk
      bset = ProbeResult.early sc.1 sc.2 false [] := by
  unfold nvidia_wmi_ec_backlight_probe
  rw [hphase]

/-- When the lookup phase completes, probe continues with its outcome. -/
theorem probe_of_phase_ok (cfg : ProbeConfig) (counter : Int)
    (lookup : Option backlight_props) (aas : Int) (bus : WmiBus)
    (regSt : Int) (allocOk : Bool) (bset : Int → Int)
    (tcw : Option backlight_props × Int × Bool)
    (hphase : probe_lookup_phase cfg counter lookup aas = Except.ok tcw) :
    nvidia_wmi_ec_backlight_probe cfg counter lookup aas bus regSt allocOk
      bset = probe_after_lookup cfg tcw.2.1 tcw.1 tcw.2.2 bus regSt allocOk
        bset := by
  unfold nvidia_wmi_ec_backlight_probe
  rw [hphase]

/-- probe_after_lookup never touches the reprobe counter. -/
theorem probe_after_lookup_counter (cfg : ProbeConfig) (c : Int)
    (t : Option backlight_props) (w : Bool) (bus : WmiBus) (regSt : Int)
    (allocOk : Bool) (bset : Int → Int) :
    (probe_after_lookup cfg c t w bus regSt allocOk bset).counter = c := by
  simp only [probe_after_lookup, ProbeResult.early]
  repeat' split
  all_goals rfl

/-- probe_after_lookup passes the disable-diagnostic flag through. -/
theorem probe_after_lookup_warned (cfg : ProbeConfig) (c : Int)
    (t : Option backlight_props) (w : Bool) (bus : WmiBus) (regSt : Int)
    (allocOk : Bool) (bset : Int → Int) :
    (probe_after_lookup cfg c t w bus regSt allocOk bset).warned_disable
      = w := by
  simp only [probe_after_lookup, ProbeResult.early]
  repeat' split
  all_goals rfl

/-- Without a resolved target, probe_after_lookup never binds a proxy. -/
theorem probe_after_lookup_no_target (cfg : ProbeConfig) (c : Int) (w : Bool)
    (bus : WmiBus) (regSt : Int) (allocOk : Bool) (bset : Int → Int) :
    (probe_after_lookup cfg c none w bus regSt allocOk bset).proxy_bound
      = false := by
  simp only [probe_after_lookup, ProbeResult.early]
  repeat' split
  all_goals rfl

/-- The first firmware call probe_after_lookup makes is always the
BrightnessSource query. -/
theorem probe_after_lookup_first_call (cfg : ProbeConfig) (c : Int)
    (t : Option backlight_props) (w : Bool) (bus : WmiBus) (regSt : Int)
    (allocOk : Bool) (bset : Int → Int) :
    (probe_after_lookup cfg c t w bus regSt allocOk bset).busCalls.head? =
      some (WMI_BRIGHTNESS_METHOD_SOURCE,
        wmi_request WMI_BRIGHTNESS_MODE_GET 0) := by
  have h1 := wmi_brightness_notify_calls bus WMI_BRIGHTNESS_METHOD_SOURCE
    WMI_BRIGHTNESS_MODE_GET 0 (by decide)
  simp only [probe_after_lookup, ProbeResult.early]
  repeat' split
  all_goals simp [h1]

/-- If the source query succeeds and reports anything other than EC,
probe_after_lookup aborts with -ENODEV after that single firmware call. -/
theorem probe_after_lookup_non_ec (cfg : ProbeConfig) (c : Int)
    (t : Option backlight_props) (w : Bool) (bus : WmiBus) (regSt : Int)
    (allocOk : Bool) (bset : Int → Int) (resp : wmi_brightness_args)
    (hbus : bus WMI_BRIGHTNESS_METHOD_SOURCE
      (wmi_request WMI_BRIGHTNESS_MODE_GET 0) = some resp)
    (hne : resp.ret ≠ WMI_BRIGHTNESS_SOURCE_EC) :
    probe_after_lookup cfg c t w bus regSt allocOk bset =
      ProbeResult.early (-ENODEV) c w
        [(WMI_BRIGHTNESS_METHOD_SOURCE,
          wmi_request WMI_BRIGHTNESS_MODE_GET 0)] := by
  have h1 := wmi_brightness_notify_of_some bus WMI_BRIGHTNESS_METHOD_SOURCE
    WMI_BRIGHTNESS_MODE_GET 0 resp (by decide) hbus
  simp only [probe_after_lookup, ProbeResult.early, h1]
  simp only [WMI_BRIGHTNESS_MODE_GET, WMI_BRIGHTNESS_MODE_SET] at hne ⊢
  simp [hne]

/-- If the source query succeeds and reports EC, the max-level query is among
the firmware calls probe makes. -/
theorem probe_after_lookup_ec_queries_max (cfg : ProbeConfig) (c : Int)
    (t : Option backlight_props) (w : Bool) (bus : WmiBus) (regSt : Int)
    (allocOk : Bool) (bset : Int → Int) (resp : wmi_brightness_args)
    (hbus : bus WMI_BRIGHTNESS_METHOD_SOURCE
      (wmi_request WMI_BRIGHTNESS_MODE_GET 0) = some resp)
    (hec : resp.ret = WMI_BRIGHTNESS_SOURCE_EC) :
    (WMI_BRIGHTNESS_METHOD_LEVEL,
        wmi_request WMI_BRIGHTNESS_MODE_GET_MAX_LEVEL 0) ∈
      (probe_after_lookup cfg c t w bus regSt allocOk bset).busCalls := by
  have h1 := wmi_brightness_notify_of_some bus WMI_BRIGHTNESS_METHOD_SOURCE
    WMI_BRIGHTNESS_MODE_GET 0 resp (by decide) hbus
  have h2 := wmi_brightness_notify_calls bus WMI_BRIGHTNESS_METHOD_LEVEL
    WMI_BRIGHTNESS_MODE_GET_MAX_LEVEL 0 (by decide)
  simp only [probe_after_lookup, ProbeResult.early, h1]
  simp only [WMI_BRIGHTNESS_MODE_GET, WMI_BRIGHTNESS_MODE_SET] at hec ⊢
  simp only [hec]
  repeat' split
  all_goals simp_all [h2]

/-- If the source query reports EC and the level queries, the registration
and the allocation all succeed, probe_after_lookup registers the device,
returns 0, and has made exactly the three firmware calls in order. -/
theorem probe_after_lookup_ec_success (cfg : ProbeConfig) (c : Int)
    (t : Option backlight_props) (w : Bool) (bus : WmiBus) (regSt : Int)
    (allocOk : Bool) (bset : Int → Int) (resp r2 r3 : wmi_brightness_args)
    (hbus : bus WMI_BRIGHTNESS_METHOD_SOURCE
      (wmi_request WMI_BRIGHTNESS_MODE_GET 0) = some resp)
    (hec : resp.ret = WMI_BRIGHTNESS_SOURCE_EC)
    (hbus2 : bus WMI_BRIGHTNESS_METHOD_LEVEL
      (wmi_request WMI_BRIGHTNESS_MODE_GET_MAX_LEVEL 0) = some r2)
    (hbus3 : bus WMI_BRIGHTNESS_METHOD_LEVEL
      (wmi_request WMI_BRIGHTNESS_MODE_GET 0) = some r3)
    (hreg : regSt = 0) (halloc : allocOk = true) :
    (probe_after_lookup cfg c t w bus regSt allocOk bset).registered = true ∧
    (probe_after_lookup cfg c t w bus regSt allocOk bset).status = 0 ∧
    (probe_after_lookup cfg c t w bus regSt allocOk bset).busCalls =
      [(WMI_BRIGHTNESS_METHOD_SOURCE, wmi_request WMI_BRIGHTNESS_MODE_GET 0),
       (WMI_BRIGHTNESS_METHOD_LEVEL,
         wmi_request WMI_BRIGHTNESS_MODE_GET_MAX_LEVEL 0),
       (WMI_BRIGHTNESS_METHOD_LEVEL,
         wmi_request WMI_BRIGHTNESS_MODE_GET 0)] := by
  have h1 := wmi_brightness_notify_of_some bus WMI_BRIGHTNESS_METHOD_SOURCE
    WMI_BRIGHTNESS_MODE_GET 0 resp (by decide) hbus
  have h2 := wmi_brightness_notify_of_some bus WMI_BRIGHTNESS_METHOD_LEVEL
    WMI_BRIGHTNESS_MODE_GET_MAX_LEVEL 0 r2 (by decide) hbus2
  have h3 := wmi_brightness_notify_of_some bus WMI_BRIGHTNESS_METHOD_LEVEL
    WMI_BRIGHTNESS_MODE_GET 0 r3 (by decide) hbus3
  subst hreg halloc
  simp only [probe_after_lookup, ProbeResult.early, h1, h2, h3]
  simp only [WMI_BRIGHTNESS_MODE_GET, WMI_BRIGHTNESS_MODE_SET] at hec ⊢
  simp only [hec]
  cases t <;> simp

/-! ## Claim C1 -/

/-- C1: during probe, once the lookup phase has completed and the brightness
source query has succeeded, a reported source other than EC (GPU, AUX or
anything else) aborts binding with -ENODEV, registering nothing and making
no further firmware call; a reported source of EC proceeds to the
max-level query and, when the remaining level queries, the registration and
the allocation succeed, registers the backlight device. -/
theorem probe_aborts_unless_ec_source (cfg : ProbeConfig) (counter : Int)
    (lookup : Option backlight_props) (aas : Int) (bus : WmiBus)
    (regSt : Int) (allocOk : Bool) (bset : Int → Int)
    (tcw : Option backlight_props × Int × Bool)
    (hphase : probe_lookup_phase cfg counter lookup aas = Except.ok tcw)
    (resp : wmi_brightness_args)
    (hbus : bus WMI_BRIGHTNESS_METHOD_SOURCE
      (wmi_request WMI_BRIGHTNESS_MODE_GET 0) = some resp) :
    (resp.ret ≠ WMI_BRIGHTNESS_SOURCE_EC →
      (nvidia_wmi_ec_backlight_probe cfg counter lookup aas bus regSt allocOk
        bset).status = -ENODEV ∧
      (nvidia_wmi_ec_backlight_probe cfg counter lookup aas bus regSt allocOk
        bset).registered = false ∧
      (nvidia_wmi_ec_backlight_probe cfg counter lookup aas bus regSt allocOk
        bset).busCalls =
        [(WMI_BRIGHTNESS_METHOD_SOURCE,
          wmi_request WMI_BRIGHTNESS_MODE_GET 0)]) ∧
    (resp.ret = WMI_BRIGHTNESS_SOURCE_EC →
      (WMI_BRIGHTNESS_METHOD_LEVEL,
          wmi_request WMI_BRIGHTNESS_MODE_GET_MAX_LEVEL 0) ∈
        (nvidia_wmi_ec_backlight_probe cfg counter lookup aas bus regSt
          allocOk bset).busCalls ∧
      (∀ r2 r3 : wmi_brightness_args,
        bus WMI_BRIGHTNESS_METHOD_LEVEL
          (wmi_request WMI_BRIGHTNESS_MODE_GET_MAX_LEVEL 0) = some r2 →
        bus WMI_BRIGHTNESS_METHOD_LEVEL
          (wmi_request WMI_BRIGHTNESS_MODE_GET 0) = some r3 →
        regSt = 0 → allocOk = true →
        (nvidia_wmi_ec_backlight_probe cfg counter lookup aas bus regSt
          allocOk bset).registered = true ∧
        (nvidia_wmi_ec_backlight_probe cfg counter lookup aas bus regSt
          allocOk bset).status = 0)) := by
  rw [probe_of_phase_ok cfg counter lookup aas bus regSt allocOk bset tcw
    hphase]
  constructor
  · intro hne
    rw [probe_after_lookup_non_ec cfg tcw.2.1 tcw.1 tcw.2.2 bus regSt allocOk
      bset resp hbus hne]
    exact ⟨rfl, rfl, rfl⟩
  · intro hec
    refine ⟨probe_after_lookup_ec_queries_max cfg tcw.2.1 tcw.1 tcw.2.2 bus
      regSt allocOk bset resp hbus hec, ?_⟩
    intro r2 r3 hbus2 hbus3 hreg halloc
    have h := probe_after_lookup_ec_success cfg tcw.2.1 tcw.1 tcw.2.2 bus
      regSt allocOk bset resp r2 r3 hbus hec hbus2 hbus3 hreg halloc
    exact ⟨h.1, h.2.1⟩

/-- C1 witness: with no proxy target configured and a bus that reports source
EC (ret 2) and succeeds on every call, probe registers and returns 0; the
same theorem applied to a GPU-reporting bus (ret 1) yields -ENODEV. -/
theorem probe_aborts_unless_ec_source_witness :
    (nvidia_wmi_ec_backlight_probe ⟨none, 128, false⟩ 0 none 0
      (fun _ _ => some ⟨0, 0, 2, 0, 0, 0⟩) 0 true (fun _ => 0)).registered
      = true ∧
    (nvidia_wmi_ec_backlight_probe ⟨none, 128, false⟩ 0 none 0
      (fun _ _ => some ⟨0, 0, 2, 0, 0, 0⟩) 0 true (fun _ => 0)).status = 0 ∧
    (nvidia_wmi_ec_backlight_probe ⟨none, 128, false⟩ 0 none 0
      (fun _ _ => some ⟨0, 0, 1, 0, 0, 0⟩) 0 true (fun _ => 0)).status
      = -ENODEV := by
  refine ⟨?_, ?_, ?_⟩
  · exact (((probe_aborts_unless_ec_source ⟨none, 128, false⟩ 0 none 0
      (fun _ _ => some ⟨0, 0, 2, 0, 0, 0⟩) 0 true (fun _ => 0)
      (none, 0, false) rfl ⟨0, 0, 2, 0, 0, 0⟩ rfl).2 rfl).2
      ⟨0, 0, 2, 0, 0, 0⟩ ⟨0, 0, 2, 0, 0, 0⟩ rfl rfl rfl rfl).1
  · exact (((probe_aborts_unless_ec_source ⟨none, 128, false⟩ 0 none 0
      (fun _ _ => some ⟨0, 0, 2, 0, 0, 0⟩) 0 true (fun _ => 0)
      (none, 0, false) rfl ⟨0, 0, 2, 0, 0, 0⟩ rfl).2 rfl).2
      ⟨0, 0, 2, 0, 0, 0⟩ ⟨0, 0, 2, 0, 0, 0⟩ rfl rfl rfl rfl).2
  · exact ((probe_aborts_unless_ec_source ⟨none, 128, false⟩ 0 none 0
      (fun _ _ => some ⟨0, 0, 1, 0, 0, 0⟩) 0 true (fun _ => 0)
      (none, 0, false) rfl ⟨0, 0, 1, 0, 0, 0⟩ rfl).1 (by decide)).1

/-! ## Claim C7 -/

/-- With a proxy target configured and the lookup failing, a probe attempt
either defers and increments the counter (below the ceiling) or proceeds
with proxying disabled (at or above it). -/
theorem probe_counter_step (cfg : ProbeConfig) (c aas : Int) (bus : WmiBus)
    (regSt : Int) (allocOk : Bool) (bset : Int → Int)
    (hname : proxy_target_configured cfg = true) :
    nvidia_wmi_ec_backlight_probe cfg c none aas bus regSt allocOk bset =
      if c < cfg.max_reprobe_attempts then
        ProbeResult.early (-EPROBE_DEFER) (c + 1) false []
      else
        probe_after_lookup cfg c none true bus regSt allocOk bset := by
  by_cases hc : c < cfg.max_reprobe_attempts
  · simp [nvidia_wmi_ec_backlight_probe, probe_lookup_phase, hname, hc]
  · simp [nvidia_wmi_ec_backlight_probe, probe_lookup_phase, hname, hc]

/-- C7: with a proxy target name configured and the named device never
resolvable, every probe attempt with the counter below the ceiling defers
with -EPROBE_DEFER, increments the counter and calls no firmware; the
attempt at the ceiling keeps the counter, emits the disable diagnostic,
binds no proxy and proceeds into the firmware source query; and starting
from zero the counter after n attempts equals min n ceiling, so it never
exceeds the ceiling. -/
theorem probe_reprobe_bound (cfg : ProbeConfig) (counter aas : Int)
    (bus : WmiBus) (regSt : Int) (allocOk : Bool) (bset : Int → Int)
    (hname : proxy_target_configured cfg = true)
    (hmax : 0 ≤ cfg.max_reprobe_attempts) :
    (counter < cfg.max_reprobe_attempts →
      (nvidia_wmi_ec_backlight_probe cfg counter none aas bus regSt allocOk
        bset).status = -EPROBE_DEFER ∧
      (nvidia_wmi_ec_backlight_probe cfg counter none aas bus regSt allocOk
        bset).counter = counter + 1 ∧
      (nvidia_wmi_ec_backlight_probe cfg counter none aas bus regSt allocOk
        bset).busCalls = []) ∧
    (¬counter < cfg.max_reprobe_attempts →
      (nvidia_wmi_ec_backlight_probe cfg counter none aas bus regSt allocOk
        bset).counter = counter ∧
      (nvidia_wmi_ec_backlight_probe cfg counter none aas bus regSt allocOk
        bset).warned_disable = true ∧
      (nvidia_wmi_ec_backlight_probe cfg counter none aas bus regSt allocOk
        bset).proxy_bound = false ∧
      (nvidia_wmi_ec_backlight_probe cfg counter none aas bus regSt allocOk
        bset).busCalls.head? = some (WMI_BRIGHTNESS_METHOD_SOURCE,
          wmi_request WMI_BRIGHTNESS_MODE_GET 0)) ∧
    (∀ n : Nat, reprobe_iter cfg none aas bus regSt allocOk bset n =
      min (n : Int) cfg.max_reprobe_attempts) ∧
    (∀ n : Nat, reprobe_iter cfg none aas bus regSt allocOk bset n ≤
      cfg.max_reprobe_attempts) := by
  have hstep := fun c => probe_counter_step cfg c aas bus regSt allocOk bset
    hname
  have hiter : ∀ n : Nat, reprobe_iter cfg none aas bus regSt allocOk bset n =
      min (n : Int) cfg.max_reprobe_attempts := by
    intro n
    induction n with
    | zero =>
        simp only [reprobe_iter, Nat.cast_zero]
        omega
    | succ n ih =>
        simp only [reprobe_iter, hstep]
        by_cases hc : reprobe_iter cfg none aas bus regSt allocOk bset n <
          cfg.max_reprobe_attempts
        · rw [if_pos hc]
          rw [ih] at hc
          simp only [ProbeResult.early, ih]
          push_cast
          omega
        · rw [if_neg hc, probe_after_lookup_counter]
          rw [ih] at hc
          rw [ih]
          push_cast
          omega
  refine ⟨?_, ?_, hiter, ?_⟩
  · intro hc
    rw [hstep counter, if_pos hc]
    exact ⟨rfl, rfl, rfl⟩
  · intro hc
    rw [hstep counter, if_neg hc]
    exact ⟨probe_after_lookup_counter cfg counter none true bus regSt allocOk
      bset, probe_after_lookup_warned cfg counter none true bus regSt allocOk
      bset, probe_after_lookup_no_target cfg counter true bus regSt allocOk
      bset, probe_after_lookup_first_call cfg counter none true bus regSt
      allocOk bset⟩
  · intro n
    rw [hiter n]
    exact min_le_right _ _

/-- C7 witness: with target name configured, ceiling 2 and a never-resolving
lookup, the attempt at counter 0 defers to counter 1, the attempt at
counter 2 keeps the counter and warns, and five attempts from zero leave
the counter at 2. -/
theorem probe_reprobe_bound_witness :
    (nvidia_wmi_ec_backlight_probe ⟨some "amdgpu_bl0", 2, false⟩ 0 none 0
      (fun _ _ => none) 0 true (fun _ => 0)).status = -EPROBE_DEFER ∧
    (nvidia_wmi_ec_backlight_probe ⟨some "amdgpu_bl0", 2, false⟩ 0 none 0
      (fun _ _ => none) 0 true (fun _ => 0)).counter = 1 ∧
    (nvidia_wmi_ec_backlight_probe ⟨some "amdgpu_bl0", 2, false⟩ 2 none 0
      (fun _ _ => none) 0 true (fun _ => 0)).counter = 2 ∧
    (nvidia_wmi_ec_backlight_probe ⟨some "amdgpu_bl0", 2, false⟩ 2 none 0
      (fun _ _ => none) 0 true (fun _ => 0)).warned_disable = true ∧
    reprobe_iter ⟨some "amdgpu_bl0", 2, false⟩ none 0 (fun _ _ => none) 0
      true (fun _ => 0) 5 = 2 := by
  have h0 := probe_reprobe_bound ⟨some "amdgpu_bl0", 2, false⟩ 0 0
    (fun _ _ => none) 0 true (fun _ => 0) (by decide) (by decide)
  have h2 := probe_reprobe_bound ⟨some "amdgpu_bl0", 2, false⟩ 2 0
    (fun _ _ => none) 0 true (fun _ => 0) (by decide) (by decide)
  refine ⟨(h0.1 (by decide)).1, (h0.1 (by decide)).2.1,
    (h2.2.1 (by decide)).1, (h2.2.1 (by decide)).2.1, ?_⟩
  rw [h0.2.2.1 5]
  decide
